import Mathlib

/-!
Verification of the Reality Defender SDK job-lifecycle engine
(`realitydefender` Python package): transport status mapping,
result formatting, bounded-retry polling, and the event-driven poller.

The Python source is shallowly embedded: dictionaries become association
lists over a `PyVal` universe, Python exceptions become explicit error
values, and each polling loop becomes a structurally recursive function
whose extra `fuel : Nat` argument is instantiated at every call site with
the exact number of loop iterations the source can perform
(`max_attempts` for the attempt-budgeted loops, the time budget for the
time-budgeted one); the source's own loop condition is still checked on
every iteration, so the fuel never changes which branch runs.
-/

namespace RD

/-- The closed `ErrorCode` literal type from `errors.py`. -/
inductive ErrorCode
  | unauthorized
  | invalid_request
  | server_error
  | timeout
  | invalid_file
  | file_too_large
  | upload_failed
  | not_found
  | unknown_error
deriving DecidableEq, Repr

/-- `RealityDefenderError(message, code)` from `errors.py`. -/
structure RDError where
  message : String
  code : ErrorCode
deriving DecidableEq, Repr

/-- Universe of Python values appearing in API payloads: `None`, strings,
ints, floats (modelled as rationals), bools, lists and string-keyed dicts
(association lists; API payload dicts have distinct keys). -/
inductive PyVal
  | none
  | str (s : String)
  | int (n : Int)
  | float (q : Rat)
  | bool (b : Bool)
  | list (l : List PyVal)
  | dict (d : List (String × PyVal))

/-- Python exceptions other than `RealityDefenderError` that the embedded
code can raise (`d.get` on a non-dict, iterating a non-iterable). -/
inductive PyExc
  | attributeError
  | typeError
deriving DecidableEq, Repr

/-- Dictionary lookup: the value bound to `k`, if any. -/
def pyGet (d : List (String × PyVal)) (k : String) : Option PyVal :=
  match d with
  | [] => Option.none
  | (k2, v) :: rest => if k2 = k then Option.some v else pyGet rest k

/-- Python `obj.get(k, dflt)`: succeeds on dicts, raises `AttributeError`
on every other value. A present key wins even when bound to `None`. -/
def pyGetAttr (v : PyVal) (k : String) (dflt : PyVal) : Except PyExc PyVal :=
  match v with
  | PyVal.dict d => Except.ok ((pyGet d k).getD dflt)
  | _ => Except.error PyExc.attributeError

/-- Python truthiness of a `PyVal` (`bool(v)`). -/
def pyTruthy : PyVal → Bool
  | PyVal.none => false
  | PyVal.str s => decide (s ≠ "")
  | PyVal.int n => decide (n ≠ 0)
  | PyVal.float q => decide (q ≠ 0)
  | PyVal.bool b => b
  | PyVal.list l => !l.isEmpty
  | PyVal.dict d => !d.isEmpty

/-- Python `v == s` where `s` is a string literal: true exactly for the
equal string (Python equality across types is `False`). -/
def pyEqStr (v : PyVal) (s : String) : Bool :=
  match v with
  | PyVal.str t => t = s
  | _ => false

/-- Python `v is None`. -/
def pyIsNone (v : PyVal) : Bool :=
  match v with
  | PyVal.none => true
  | _ => false

/-- Python `str(v)` as used in f-string interpolation of payload fields.
Only string-valued fields reach the messages the theorems talk about. -/
def pyStr : PyVal → String
  | PyVal.none => "None"
  | PyVal.str s => s
  | PyVal.int n => toString n
  | PyVal.float q => toString q
  | PyVal.bool b => if b then "True" else "False"
  | PyVal.list _ => "[...]"
  | PyVal.dict _ => "{...}"

/-- Python iteration `for x in v`: lists yield elements, strings yield
one-character strings, dicts yield keys, everything else raises
`TypeError`. -/
def pyIter : PyVal → Except PyExc (List PyVal)
  | PyVal.list l => Except.ok l
  | PyVal.str s => Except.ok (s.toList.map (fun c => PyVal.str (String.singleton c)))
  | PyVal.dict d => Except.ok (d.map (fun kv => PyVal.str kv.1))
  | _ => Except.error PyExc.typeError

/-- One entry of the `models` list built by `format_result`: the dict
`{"name": ..., "status": ..., "score": ...}` (`score` is the raw
`predictionNumber` when numeric, else `None`). -/
structure ModelResult where
  name : PyVal
  status : PyVal
  score : PyVal

/-- The `DetectionResult` dict built by `format_result`. -/
structure DetectionResult where
  request_id : PyVal
  status : PyVal
  score : Option Rat
  models : List ModelResult

/-- The `DetectionResultList` dict built by `format_result_list`. -/
structure DetectionResultList where
  total_items : PyVal
  total_pages : PyVal
  current_page : PyVal
  current_page_items_count : PyVal
  items : List DetectionResult

/-- `raw_score / 100.0` under `try/except (ValueError, TypeError)`:
numeric values (ints, floats and bools, a subclass of int) divide by 100;
anything else raises `TypeError`, which the source catches, leaving
`score = None`. -/
def pyDiv100 : PyVal → Option Rat
  | PyVal.int n => Option.some ((n : Rat) / 100)
  | PyVal.float q => Option.some (q / 100)
  | PyVal.bool b => Option.some ((if b then (1 : Rat) else 0) / 100)
  | _ => Option.none

/-- The list comprehension
`[m for m in ... if m.get("status") != "NOT_APPLICABLE"]`: evaluated in
full before the build loop, raising `AttributeError` at the first
non-dict entry. -/
def filterModels : List PyVal → Except PyExc (List PyVal)
  | [] => Except.ok []
  | m :: rest =>
    match pyGetAttr m "status" PyVal.none with
    | Except.error e => Except.error e
    | Except.ok s =>
      match filterModels rest with
      | Except.error e => Except.error e
      | Except.ok tail =>
          Except.ok (if pyEqStr s "NOT_APPLICABLE" then tail else m :: tail)

/-- One iteration of the model-formatting loop in `format_result`:
`predictionNumber` is kept only when `isinstance(·, (int, float))`
(which includes bools), and a `"FAKE"` status becomes `"MANIPULATED"`. -/
def buildModel (m : PyVal) : Except PyExc ModelResult :=
  match pyGetAttr m "predictionNumber" PyVal.none with
  | Except.error e => Except.error e
  | Except.ok pn =>
    let model_score :=
      match pn with
      | PyVal.int _ => pn
      | PyVal.float _ => pn
      | PyVal.bool _ => pn
      | _ => PyVal.none
    match pyGetAttr m "status" (PyVal.str "UNKNOWN") with
    | Except.error e => Except.error e
    | Except.ok ms0 =>
      let model_status := if pyEqStr ms0 "FAKE" then PyVal.str "MANIPULATED" else ms0
      match pyGetAttr m "name" (PyVal.str "Unknown") with
      | Except.error e => Except.error e
      | Except.ok name =>
          Except.ok { name := name, status := model_status, score := model_score }

/-- The model-formatting loop of `format_result` over the filtered list. -/
def buildModels : List PyVal → Except PyExc (List ModelResult)
  | [] => Except.ok []
  | m :: rest =>
    match buildModel m with
    | Except.error e => Except.error e
    | Except.ok entry =>
      match buildModels rest with
      | Except.error e => Except.error e
      | Except.ok tail => Except.ok (entry :: tail)

/-- `format_result` from `detection/results.py`. A payload without a
`resultsSummary` (absent or `None`) yields the permissive default; with
one present, the top-level status is read from it (`"FAKE"` rewritten to
`"MANIPULATED"`), the score from `metadata.finalScore / 100`, and the
models list is filtered and rewritten. Python `AttributeError`s from
`.get` on non-dict values surface as `PyExc`. -/
def format_result (response : PyVal) : Except PyExc DetectionResult :=
  match pyGetAttr response "requestId" (PyVal.str "UNKNOWN") with
  | Except.error e => Except.error e
  | Except.ok request_id =>
    match pyGetAttr response "resultsSummary" PyVal.none with
    | Except.error e => Except.error e
    | Except.ok rsProbe =>
      if !(pyIsNone rsProbe) then
        match pyGetAttr response "resultsSummary" (PyVal.dict []) with
        | Except.error e => Except.error e
        | Except.ok results_summary =>
          match pyGetAttr results_summary "status" (PyVal.str "UNKNOWN") with
          | Except.error e => Except.error e
          | Except.ok status0 =>
            let status := if pyEqStr status0 "FAKE" then PyVal.str "MANIPULATED" else status0
            match pyGetAttr results_summary "metadata" (PyVal.dict []) with
            | Except.error e => Except.error e
            | Except.ok metadata =>
              match pyGetAttr metadata "finalScore" PyVal.none with
              | Except.error e => Except.error e
              | Except.ok raw_score =>
                let score := if pyIsNone raw_score then Option.none else pyDiv100 raw_score
                match pyGetAttr response "models" (PyVal.list []) with
                | Except.error e => Except.error e
                | Except.ok modelsRaw =>
                  match pyIter modelsRaw with
                  | Except.error e => Except.error e
                  | Except.ok iter =>
                    match filterModels iter with
                    | Except.error e => Except.error e
                    | Except.ok models_data =>
                      match buildModels models_data with
                      | Except.error e => Except.error e
                      | Except.ok models =>
                        Except.ok { request_id := request_id, status := status,
                                    score := score, models := models }
      else
        Except.ok { request_id := request_id, status := PyVal.str "UNKNOWN",
                    score := Option.none, models := [] }

/-- A failure escaping one of the engine's operations: either a plain
Python exception or a raised `RealityDefenderError`. -/
inductive Failure
  | pyExc (e : PyExc)
  | rdErr (e : RDError)

/-- The five keys `format_result_list` requires to be present and
non-`None`. -/
def requiredListKeys : List String :=
  ["totalItems", "totalPages", "currentPage", "currentPageItemsCount", "mediaList"]

/-- The generator `any(response.get(x) is None for x in [...])` inside
`format_result_list`: short-circuits at the first `None`, raising
`AttributeError` if `response` is not a dict. -/
def anyKeyNone (response : PyVal) : List String → Except PyExc Bool
  | [] => Except.ok false
  | k :: rest =>
    match pyGetAttr response k PyVal.none with
    | Except.error e => Except.error e
    | Except.ok v =>
      if pyIsNone v then Except.ok true
      else anyKeyNone response rest

/-- The `for item in response.get("mediaList", [])` loop of
`format_result_list`: each entry goes through `format_result` and is
appended to `items`. -/
def formatItems : List PyVal → Except Failure (List DetectionResult)
  | [] => Except.ok []
  | item :: rest =>
    match format_result item with
    | Except.error e => Except.error (Failure.pyExc e)
    | Except.ok r =>
      match formatItems rest with
      | Except.error e => Except.error e
      | Except.ok tail => Except.ok (r :: tail)

/-- `format_result_list` from `detection/results.py`: a `None` response
or any required key absent/`None` raises
`RealityDefenderError("Invalid response from server", "server_error")`;
otherwise the counters are copied and every `mediaList` entry is passed
through `format_result`. -/
def format_result_list (response : PyVal) : Except Failure DetectionResultList :=
  if pyIsNone response then
    Except.error (Failure.rdErr ⟨"Invalid response from server", ErrorCode.server_error⟩)
  else
    match anyKeyNone response requiredListKeys with
    | Except.error e => Except.error (Failure.pyExc e)
    | Except.ok true =>
        Except.error (Failure.rdErr ⟨"Invalid response from server", ErrorCode.server_error⟩)
    | Except.ok false =>
      match pyGetAttr response "totalItems" (PyVal.int 0) with
      | Except.error e => Except.error (Failure.pyExc e)
      | Except.ok total_items =>
        match pyGetAttr response "totalPages" (PyVal.int 0) with
        | Except.error e => Except.error (Failure.pyExc e)
        | Except.ok total_pages =>
          match pyGetAttr response "currentPage" (PyVal.int 0) with
          | Except.error e => Except.error (Failure.pyExc e)
          | Except.ok current_page =>
            match pyGetAttr response "currentPageItemsCount" (PyVal.int 0) with
            | Except.error e => Except.error (Failure.pyExc e)
            | Except.ok current_page_items_count =>
              match pyGetAttr response "mediaList" (PyVal.list []) with
              | Except.error e => Except.error (Failure.pyExc e)
              | Except.ok mediaRaw =>
                match pyIter mediaRaw with
                | Except.error e => Except.error (Failure.pyExc e)
                | Except.ok entries =>
                  match formatItems entries with
                  | Except.error f => Except.error f
                  | Except.ok items =>
                    Except.ok { total_items := total_items, total_pages := total_pages,
                                current_page := current_page,
                                current_page_items_count := current_page_items_count,
                                items := items }

/-- The body handed to `HttpClient._handle_response`, per the transport
contract (§4.1): either a JSON object `{code, response}` or a body that
failed to parse as JSON, kept as raw text. -/
inductive Body
  | json (d : List (String × PyVal))
  | text (t : String)

/-- Python `v or dflt`. -/
def pyOrPy (v dflt : PyVal) : PyVal := if pyTruthy v then v else dflt

/-- `HttpClient._handle_response` from `client/http_client.py`:
`code = json.get("code") or ""`, `response = json.get("response") or
"Unknown error"` on a parsed body (code `""`, response the raw text on a
parse failure), then the status checks in source order. The 400-blocked
branch passes the `response` value itself as the message (rendered
through `pyStr`). -/
def handle_response (status : Int) (body : Body) : Except RDError (List (String × PyVal)) :=
  let jsonContent : Option (List (String × PyVal)) :=
    match body with
    | Body.json d => Option.some d
    | Body.text _ => Option.none
  let code : PyVal :=
    match body with
    | Body.json d => pyOrPy ((pyGet d "code").getD PyVal.none) (PyVal.str "")
    | Body.text _ => PyVal.str ""
  let response : PyVal :=
    match body with
    | Body.json d => pyOrPy ((pyGet d "response").getD PyVal.none) (PyVal.str "Unknown error")
    | Body.text t => PyVal.str t
  if status = 400 then
    if pyEqStr code "free-tier-not-allowed" || pyEqStr code "upload-limit-reached" then
      Except.error ⟨pyStr response, ErrorCode.unauthorized⟩
    else
      Except.error ⟨"Invalid request: " ++ pyStr response, ErrorCode.invalid_request⟩
  else if status = 401 then
    Except.error ⟨"Invalid API key", ErrorCode.unauthorized⟩
  else if status = 404 then
    Except.error ⟨"Resource not found", ErrorCode.not_found⟩
  else if status > 400 then
    Except.error ⟨"API error: " ++ pyStr response, ErrorCode.server_error⟩
  else
    match jsonContent with
    | Option.none =>
        Except.error ⟨"Invalid JSON response: " ++ pyStr response, ErrorCode.server_error⟩
    | Option.some d => Except.ok d

/-! ## Polling engine

The network is abstracted as an oracle `fetch : Nat → ClientOutcome`
giving the outcome of the n-th `client.get` call of the operation. Each
polling loop is written with the source's own loop condition checked on
every iteration; the structural `fuel` argument is instantiated at the
single call site with `max_attempts.toNat`, which by the loop invariant
`fuel = (max_attempts - attempts).toNat` is exactly the number of
iterations the `while attempts < max_attempts` loop can run. -/

/-- `DEFAULT_POLLING_INTERVAL` from `core/constants.py` (milliseconds). -/
def DEFAULT_POLLING_INTERVAL : Int := 2000

/-- `DEFAULT_TIMEOUT` from `core/constants.py` (milliseconds). -/
def DEFAULT_TIMEOUT : Int := 60000

/-- `DEFAULT_MAX_ATTEMPTS` from `core/constants.py`. -/
def DEFAULT_MAX_ATTEMPTS : Int := 30

/-- Outcome of one raw `client.get` call: a parsed JSON payload, a raised
`RealityDefenderError` (from the §4.1 status mapping), or a non-domain
exception rendered as its `str(e)` message. -/
inductive ClientOutcome
  | ok (v : PyVal)
  | rdErr (e : RDError)
  | exc (msg : String)

/-- `get_media_result` from `detection/results.py`: passes domain errors
through and wraps any other exception as `unknown_error`. -/
def get_media_result (o : ClientOutcome) : Except RDError PyVal :=
  match o with
  | ClientOutcome.ok v => Except.ok v
  | ClientOutcome.rdErr e => Except.error e
  | ClientOutcome.exc s =>
      Except.error ⟨"Failed to get result: " ++ s, ErrorCode.unknown_error⟩

/-- `get_media_results` from `detection/results.py`: same wrapping as
`get_media_result` with the list-endpoint message. -/
def get_media_results (o : ClientOutcome) : Except RDError PyVal :=
  match o with
  | ClientOutcome.ok v => Except.ok v
  | ClientOutcome.rdErr e => Except.error e
  | ClientOutcome.exc s =>
      Except.error ⟨"Failed to get results: " ++ s, ErrorCode.unknown_error⟩

/-- How a polling operation ends for its caller: a returned value, a
raised `RealityDefenderError`, or an unclassified Python exception. -/
inductive PollOutcome (α : Type)
  | ok (r : α)
  | rdErr (e : RDError)
  | pyExc (e : PyExc)

/-- A finished polling run: its outcome, how many raw fetches it
performed, and the durations passed to its successive `sleep` calls. -/
structure RunResult (α : Type) where
  outcome : PollOutcome α
  fetches : Nat
  sleeps : List Int

/-- Rendering of a Python exception's `str(e)` used when the source
interpolates it into a wrap message (the exact Python text is not
modelled; no theorem depends on these strings). -/
def pyExcMsg : PyExc → String
  | PyExc.attributeError => "AttributeError"
  | PyExc.typeError => "TypeError"

/-- The `while attempts < max_attempts` fallthrough of
`get_detection_result` (the "should never be reached" tail): one more
fetch and format, with formatting exceptions left uncaught. -/
def gdrTail (fetch : Nat → ClientOutcome) (fetches : Nat) (sleeps : List Int) :
    RunResult DetectionResult :=
  match get_media_result (fetch fetches) with
  | Except.error e => ⟨PollOutcome.rdErr e, fetches + 1, sleeps⟩
  | Except.ok media_result =>
    match format_result media_result with
    | Except.error pe => ⟨PollOutcome.pyExc pe, fetches + 1, sleeps⟩
    | Except.ok r => ⟨PollOutcome.ok r, fetches + 1, sleeps⟩

/-- The polling loop of `get_detection_result`: per attempt, fetch and
format; a status outside {ANALYZING, UNKNOWN} returns immediately; the
last allowed attempt returns the current result anyway; a `not_found`
domain error with attempts left sleeps and retries, any other domain
error re-raises; a non-domain formatting exception is wrapped as
`server_error`. -/
def gdrLoop (fetch : Nat → ClientOutcome) (max_attempts polling_interval : Int)
    (attempts : Nat) (fetches : Nat) (sleeps : List Int) :
    Nat → RunResult DetectionResult
  | 0 => gdrTail fetch fetches sleeps
  | fuel + 1 =>
    if (attempts : Int) < max_attempts then
      match get_media_result (fetch fetches) with
      | Except.ok media_result =>
        match format_result media_result with
        | Except.ok result =>
          if !(pyEqStr result.status "ANALYZING") && !(pyEqStr result.status "UNKNOWN") then
            ⟨PollOutcome.ok result, fetches + 1, sleeps⟩
          else if (attempts : Int) ≥ max_attempts - 1 then
            ⟨PollOutcome.ok result, fetches + 1, sleeps⟩
          else
            gdrLoop fetch max_attempts polling_interval (attempts + 1) (fetches + 1)
              (sleeps ++ [polling_interval]) fuel
        | Except.error pe =>
          ⟨PollOutcome.rdErr ⟨"Failed to get detection result: " ++ pyExcMsg pe,
              ErrorCode.server_error⟩, fetches + 1, sleeps⟩
      | Except.error e =>
        if e.code = ErrorCode.not_found ∧ (attempts : Int) < max_attempts - 1 then
          gdrLoop fetch max_attempts polling_interval (attempts + 1) (fetches + 1)
            (sleeps ++ [polling_interval]) fuel
        else
          ⟨PollOutcome.rdErr e, fetches + 1, sleeps⟩
    else gdrTail fetch fetches sleeps

/-- `get_detection_result` from `detection/results.py`. An empty
`request_id` raises `not_found` before any fetch; `polling_interval` is
the duration passed to each `sleep` call (recorded via the `sleeps`
counter). -/
def get_detection_result (fetch : Nat → ClientOutcome) (request_id : String)
    (max_attempts : Int) (polling_interval : Int) : RunResult DetectionResult :=
  if request_id = "" then
    ⟨PollOutcome.rdErr ⟨"request_id is required", ErrorCode.not_found⟩, 0, []⟩
  else
    gdrLoop fetch max_attempts polling_interval 0 0 [] max_attempts.toNat

/-- The polling loop of `get_detection_results`: per attempt, fetch the
page and format it; a raised `RealityDefenderError` (from the fetch or
from `format_result_list`) is re-raised when `unauthorized`, retried
while attempts remain, and re-raised on the last attempt; a non-domain
exception is wrapped as `server_error` and raised immediately. The
fuel-0 branch is the post-loop `timeout` raise, reached only when
`max_attempts ≤ 0`. -/
def gdrsLoop (fetch : Nat → ClientOutcome) (max_attempts polling_interval : Int)
    (attempts : Nat) (fetches : Nat) (sleeps : List Int) :
    Nat → RunResult DetectionResultList
  | 0 =>
    ⟨PollOutcome.rdErr ⟨"Failed to get detection result list after " ++
        toString attempts ++ " attempts", ErrorCode.timeout⟩, fetches, sleeps⟩
  | fuel + 1 =>
    if (attempts : Int) < max_attempts then
      match get_media_results (fetch fetches) with
      | Except.ok media_results =>
        match format_result_list media_results with
        | Except.ok result => ⟨PollOutcome.ok result, fetches + 1, sleeps⟩
        | Except.error (Failure.rdErr e) =>
          if e.code = ErrorCode.unauthorized then
            ⟨PollOutcome.rdErr e, fetches + 1, sleeps⟩
          else if (attempts : Int) < max_attempts - 1 then
            gdrsLoop fetch max_attempts polling_interval (attempts + 1) (fetches + 1)
              (sleeps ++ [polling_interval]) fuel
          else
            ⟨PollOutcome.rdErr e, fetches + 1, sleeps⟩
        | Except.error (Failure.pyExc pe) =>
          ⟨PollOutcome.rdErr ⟨"Failed to get detection result list: " ++ pyExcMsg pe,
              ErrorCode.server_error⟩, fetches + 1, sleeps⟩
      | Except.error e =>
        if e.code = ErrorCode.unauthorized then
          ⟨PollOutcome.rdErr e, fetches + 1, sleeps⟩
        else if (attempts : Int) < max_attempts - 1 then
          gdrsLoop fetch max_attempts polling_interval (attempts + 1) (fetches + 1)
            (sleeps ++ [polling_interval]) fuel
        else
          ⟨PollOutcome.rdErr e, fetches + 1, sleeps⟩
    else
      ⟨PollOutcome.rdErr ⟨"Failed to get detection result list after " ++
          toString attempts ++ " attempts", ErrorCode.timeout⟩, fetches, sleeps⟩

/-- `get_detection_results` from `detection/results.py` (page number,
size and filters only shape the URL and are not part of the control
model). -/
def get_detection_results (fetch : Nat → ClientOutcome)
    (max_attempts : Int) (polling_interval : Int) : RunResult DetectionResultList :=
  gdrsLoop fetch max_attempts polling_interval 0 0 [] max_attempts.toNat

/-! ## Event-driven poller -/

/-- An event emitted by `poll_for_results` via `self.emit`. -/
inductive Event
  | result (r : DetectionResult)
  | error (e : RDError)

/-- Python `arg or dflt` on an `Optional[int]`: `None` and `0` are both
falsy and replaced by the default; every other integer (negative ones
included) is kept. -/
def pyOrInt (v : Option Int) (dflt : Int) : Int :=
  match v with
  | Option.none => dflt
  | Option.some n => if n = 0 then dflt else n

/-- The `while not is_completed and elapsed < max_wait_time` loop of
`RealityDefender.poll_for_results`, over an oracle
`inner : Nat → PollOutcome DetectionResult` giving the outcome of the
n-th inner `self.get_result` call (each of which performs at least one
network fetch). Returns the list of emitted events and the number of
inner calls; `Option.none` marks a run that outlives its fuel, which by
the elapsed-time argument cannot happen for a positive interval and
`fuel = max_wait_time.toNat`. -/
def pfrLoop (inner : Nat → PollOutcome DetectionResult)
    (polling_interval max_wait_time : Int) (elapsed : Int) (calls : Nat) :
    Nat → Option (List Event × Nat)
  | 0 =>
    if elapsed < max_wait_time then Option.none
    else Option.some ([Event.error ⟨"Polling timeout exceeded", ErrorCode.timeout⟩], calls)
  | fuel + 1 =>
    if elapsed < max_wait_time then
      match inner calls with
      | PollOutcome.ok result =>
        if pyEqStr result.status "ANALYZING" then
          pfrLoop inner polling_interval max_wait_time (elapsed + polling_interval) (calls + 1) fuel
        else
          Option.some ([Event.result result], calls + 1)
      | PollOutcome.rdErr e =>
        if e.code = ErrorCode.not_found then
          pfrLoop inner polling_interval max_wait_time (elapsed + polling_interval) (calls + 1) fuel
        else
          Option.some ([Event.error e], calls + 1)
      | PollOutcome.pyExc pe =>
        Option.some ([Event.error ⟨pyExcMsg pe, ErrorCode.unknown_error⟩], calls + 1)
    else
      Option.some ([Event.error ⟨"Polling timeout exceeded", ErrorCode.timeout⟩], calls)

/-- `RealityDefender.poll_for_results`: both optional arguments go
through Python `or`-defaulting (so an explicit `0` becomes the default),
then a non-positive effective timeout emits `timeout` before any inner
call, and otherwise the loop runs. -/
def poll_for_results (inner : Nat → PollOutcome DetectionResult)
    (polling_interval timeout : Option Int) (fuel : Nat) :
    Option (List Event × Nat) :=
  let polling_interval := pyOrInt polling_interval DEFAULT_POLLING_INTERVAL
  let timeout := pyOrInt timeout DEFAULT_TIMEOUT
  if timeout ≤ 0 then
    Option.some ([Event.error ⟨"Polling timeout exceeded", ErrorCode.timeout⟩], 0)
  else
    pfrLoop inner polling_interval timeout 0 0 fuel

/-! ## Projections and spec-side statements -/

/-- The error kind a run surfaces, if it raised a domain error. -/
def outcomeCode {α : Type} : PollOutcome α → Option ErrorCode
  | PollOutcome.rdErr e => Option.some e.code
  | _ => Option.none

/-- The kind of a raised transport error, `Option.none` on success. -/
def errKind {α : Type} : Except RDError α → Option ErrorCode
  | Except.error e => Option.some e.code
  | Except.ok _ => Option.none

/-- The spec's status-vocabulary rewrite: `"FAKE"` becomes
`"MANIPULATED"`, everything else is untouched. -/
def rewriteFake (v : PyVal) : PyVal :=
  if pyEqStr v "FAKE" then PyVal.str "MANIPULATED" else v

/-- Whether a raw model entry survives formatting per the spec: dropped
exactly when its raw status is `"NOT_APPLICABLE"`. -/
def keptModel (m : PyVal) : Bool :=
  match m with
  | PyVal.dict d => !(pyEqStr ((pyGet d "status").getD PyVal.none) "NOT_APPLICABLE")
  | _ => true

/-- The formatted entry the spec prescribes for a surviving raw model
entry: name (default `"Unknown"`), status with the `FAKE` rewrite
(default `"UNKNOWN"`), and the numeric `predictionNumber` or `None`. -/
def specModelOut (m : PyVal) : ModelResult :=
  match m with
  | PyVal.dict d =>
      { name := (pyGet d "name").getD (PyVal.str "Unknown"),
        status := rewriteFake ((pyGet d "status").getD (PyVal.str "UNKNOWN")),
        score :=
          match (pyGet d "predictionNumber").getD PyVal.none with
          | PyVal.int n => PyVal.int n
          | PyVal.float q => PyVal.float q
          | PyVal.bool b => PyVal.bool b
          | _ => PyVal.none }
  | _ => { name := PyVal.none, status := PyVal.none, score := PyVal.none }

/-- Claim C4's "body code in {free-tier-not-allowed, upload-limit-reached}":
the body is a JSON object whose `code` field is one of the two blocked
strings. -/
def bodyCodeIsBlocked (body : Body) : Bool :=
  match body with
  | Body.json d =>
      match pyGet d "code" with
      | Option.some (PyVal.str s) =>
          decide (s = "free-tier-not-allowed") || decide (s = "upload-limit-reached")
      | _ => false
  | Body.text _ => false

/-- The error kind claim C4 prescribes for each response, reading its
conditions in order (`Option.none` = the parsed body is returned). -/
def specStatusKind (status : Int) (body : Body) : Option ErrorCode :=
  if status = 400 && bodyCodeIsBlocked body then Option.some ErrorCode.unauthorized
  else if status = 400 then Option.some ErrorCode.invalid_request
  else if status = 401 then Option.some ErrorCode.unauthorized
  else if status = 404 then Option.some ErrorCode.not_found
  else if status > 400 then Option.some ErrorCode.server_error
  else
    match body with
    | Body.text _ => Option.some ErrorCode.server_error
    | Body.json _ => Option.none

/-! ## Claims -/


/-- **C10.** For every call of `get_detection_result` with an empty
request id, the call raises `not_found` with message
"request_id is required" before performing any fetch (zero fetches, zero
sleeps), for every `max_attempts` and `polling_interval`. -/
theorem get_detection_result_empty_request_id
    (fetch : Nat → ClientOutcome) (max_attempts polling_interval : Int) :
    get_detection_result fetch "" max_attempts polling_interval =
      ⟨PollOutcome.rdErr ⟨"request_id is required", ErrorCode.not_found⟩, 0, []⟩ := by
  simp [get_detection_result]

/-- If some required key is absent from the payload dict, the source's
`any(response.get(x) is None for x in keys)` yields `True`. -/
theorem anyKeyNone_of_missing (resp : List (String × PyVal)) (keys : List String)
    (k : String) (hk : k ∈ keys) (hmiss : pyGet resp k = Option.none) :
    anyKeyNone (PyVal.dict resp) keys = Except.ok true := by
  induction keys with
  | nil => cases hk
  | cons h t ih =>
    simp only [anyKeyNone, pyGetAttr]
    cases hv : pyIsNone ((pyGet resp h).getD PyVal.none) with
    | true => simp
    | false =>
      simp only [Bool.false_eq_true, if_false]
      rcases List.mem_cons.mp hk with rfl | hmem
      · rw [hmiss] at hv
        simp [pyIsNone] at hv
      · exact ih hmem

/-- **C8.** `format_result_list` on a payload missing any of the
required top-level counters raises `server_error` ("Invalid response
from server") and returns no list at all. -/
theorem format_result_list_missing_counter_server_error
    (resp : List (String × PyVal)) (k : String)
    (hk : k ∈ ["totalItems", "totalPages", "currentPage", "currentPageItemsCount"])
    (hmiss : pyGet resp k = Option.none) :
    format_result_list (PyVal.dict resp) =
      Except.error (Failure.rdErr ⟨"Invalid response from server", ErrorCode.server_error⟩) := by
  have hmem : k ∈ requiredListKeys := by
    simp only [requiredListKeys]
    simp only [List.mem_cons, List.not_mem_nil, or_false] at hk ⊢
    tauto
  have h := anyKeyNone_of_missing resp requiredListKeys k hmem hmiss
  simp [format_result_list, pyIsNone, h]

/-- Witness for C8 at a concrete payload missing `totalPages`. -/
theorem format_result_list_missing_counter_server_error_witness :
    format_result_list (PyVal.dict
        [("totalItems", PyVal.int 3), ("currentPage", PyVal.int 0),
         ("currentPageItemsCount", PyVal.int 3), ("mediaList", PyVal.list [])]) =
      Except.error (Failure.rdErr ⟨"Invalid response from server", ErrorCode.server_error⟩) :=
  format_result_list_missing_counter_server_error _ "totalPages" (by simp) rfl

/-- **C4.** `_handle_response` realises exactly the claimed
status-mapping contract: the error kind agrees with the claim's ordered
conditions for every status and body, status 401 yields exactly
`unauthorized` with "Invalid API key", status 404 yields exactly
`not_found` with "Resource not found", and in the no-error case the
parsed JSON body is returned unchanged. -/
theorem handle_response_status_mapping (status : Int) (body : Body) :
    errKind (handle_response status body) = specStatusKind status body ∧
    (status = 401 →
      handle_response status body =
        Except.error ⟨"Invalid API key", ErrorCode.unauthorized⟩) ∧
    (status = 404 →
      handle_response status body =
        Except.error ⟨"Resource not found", ErrorCode.not_found⟩) ∧
    (∀ d, body = Body.json d → specStatusKind status body = Option.none →
      handle_response status body = Except.ok d) := by
  have hb : ∀ d : List (String × PyVal),
      (pyEqStr (pyOrPy ((pyGet d "code").getD PyVal.none) (PyVal.str "")) "free-tier-not-allowed"
        || pyEqStr (pyOrPy ((pyGet d "code").getD PyVal.none) (PyVal.str "")) "upload-limit-reached")
        = bodyCodeIsBlocked (Body.json d) := by
    intro d
    cases h : pyGet d "code" with
    | none => simp [pyOrPy, pyTruthy, pyEqStr, bodyCodeIsBlocked, h]
    | some v =>
      simp only [bodyCodeIsBlocked, h, Option.getD_some]
      cases v with
      | str s =>
        by_cases hs : s = "" <;> simp [pyOrPy, pyTruthy, pyEqStr, hs]
      | none => simp [pyOrPy, pyTruthy, pyEqStr]
      | int n =>
        unfold pyOrPy
        cases htr : pyTruthy (PyVal.int n) <;> simp [htr, pyEqStr]
      | float q =>
        unfold pyOrPy
        cases htr : pyTruthy (PyVal.float q) <;> simp [htr, pyEqStr]
      | bool b =>
        unfold pyOrPy
        cases htr : pyTruthy (PyVal.bool b) <;> simp [htr, pyEqStr]
      | list l =>
        unfold pyOrPy
        cases htr : pyTruthy (PyVal.list l) <;> simp [htr, pyEqStr]
      | dict dd =>
        unfold pyOrPy
        cases htr : pyTruthy (PyVal.dict dd) <;> simp [htr, pyEqStr]
  rcases body with d | t <;>
    · refine ⟨?_, ?_, ?_, ?_⟩ <;>
      simp only [handle_response, specStatusKind, errKind, bodyCodeIsBlocked, hb] <;>
      split_ifs <;>
      simp_all [pyEqStr, bodyCodeIsBlocked]

/-- Witness for C4 at status 401 with an unparseable body. -/
theorem handle_response_status_mapping_witness :
    handle_response 401 (Body.text "nope") =
      Except.error ⟨"Invalid API key", ErrorCode.unauthorized⟩ :=
  (handle_response_status_mapping 401 (Body.text "nope")).2.1 rfl

/-- On a list of dict-shaped model entries the comprehension filter
succeeds and keeps exactly the non-`NOT_APPLICABLE` entries, in order. -/
theorem filterModels_dicts (ms : List PyVal)
    (h : ∀ m ∈ ms, ∃ d, m = PyVal.dict d) :
    filterModels ms = Except.ok (ms.filter keptModel) := by
  induction ms with
  | nil => rfl
  | cons m rest ih =>
    obtain ⟨d, rfl⟩ := h m (List.mem_cons_self m rest)
    have ih' := ih (fun x hx => h x (List.mem_cons_of_mem _ hx))
    simp only [filterModels, pyGetAttr, ih']
    cases hk : pyEqStr ((pyGet d "status").getD PyVal.none) "NOT_APPLICABLE" <;>
      simp [List.filter_cons, keptModel, hk]

/-- On a list of dict-shaped model entries the build loop succeeds and
produces exactly the spec's formatted entry for each, in order. -/
theorem buildModels_dicts (ms : List PyVal)
    (h : ∀ m ∈ ms, ∃ d, m = PyVal.dict d) :
    buildModels ms = Except.ok (ms.map specModelOut) := by
  induction ms with
  | nil => rfl
  | cons m rest ih =>
    obtain ⟨d, rfl⟩ := h m (List.mem_cons_self m rest)
    have ih' := ih (fun x hx => h x (List.mem_cons_of_mem _ hx))
    simp only [buildModels, buildModel, pyGetAttr, ih', specModelOut, List.map_cons]
    cases hpn : (pyGet d "predictionNumber").getD PyVal.none <;>
      simp [hpn, rewriteFake]

/-- **C6.** Whenever `format_result` succeeds on a payload carrying a
`resultsSummary` dict and a `models` list of dict entries, the output's
top-level status is the raw summary status with `"FAKE"` rewritten to
`"MANIPULATED"`, and the output models are exactly the raw entries whose
status is not `"NOT_APPLICABLE"`, in order, each with the same rewrite
applied to its status. -/
theorem format_result_status_rewrite_and_model_filter
    (resp rs : List (String × PyVal)) (ms : List PyVal) (r : DetectionResult)
    (hrs : pyGet resp "resultsSummary" = Option.some (PyVal.dict rs))
    (hms : pyGet resp "models" = Option.some (PyVal.list ms))
    (hdicts : ∀ m ∈ ms, ∃ d, m = PyVal.dict d)
    (hok : format_result (PyVal.dict resp) = Except.ok r) :
    r.status = rewriteFake ((pyGet rs "status").getD (PyVal.str "UNKNOWN")) ∧
    r.models = (ms.filter keptModel).map specModelOut := by
  have hfilter := filterModels_dicts ms hdicts
  have hbuild := buildModels_dicts (ms.filter keptModel)
    (fun m hm => hdicts m (List.mem_of_mem_filter hm))
  simp only [format_result, pyGetAttr, hrs, hms, Option.getD_some, pyIsNone,
    Bool.not_false, eq_self_iff_true, if_true] at hok
  cases hmv : (pyGet rs "metadata").getD (PyVal.dict [])
  case dict dd =>
    rw [hmv] at hok
    simp only [pyIter, hfilter, hbuild] at hok
    injection hok with h
    subst h
    exact ⟨by simp [rewriteFake], rfl⟩
  all_goals
    rw [hmv] at hok
    simp at hok

/-- Concrete model list for the C6 witness. -/
def c6models : List PyVal :=
  [PyVal.dict [("name", PyVal.str "m1"), ("status", PyVal.str "FAKE")],
   PyVal.dict [("name", PyVal.str "m2"), ("status", PyVal.str "NOT_APPLICABLE")],
   PyVal.dict [("name", PyVal.str "m3"), ("status", PyVal.str "AUTHENTIC"),
               ("predictionNumber", PyVal.float (9 / 10))]]

/-- Concrete raw payload for the C6 witness. -/
def c6resp : List (String × PyVal) :=
  [("requestId", PyVal.str "rid"),
   ("resultsSummary", PyVal.dict [("status", PyVal.str "FAKE")]),
   ("models", PyVal.list c6models)]

/-- The formatted output of `format_result` on `c6resp`. -/
def c6result : DetectionResult :=
  { request_id := PyVal.str "rid", status := PyVal.str "MANIPULATED",
    score := Option.none,
    models := [{ name := PyVal.str "m1", status := PyVal.str "MANIPULATED",
                 score := PyVal.none },
               { name := PyVal.str "m3", status := PyVal.str "AUTHENTIC",
                 score := PyVal.float (9 / 10) }] }

/-- Witness for C6 at a concrete payload: top-level `FAKE` rewritten, the
`FAKE` model rewritten, the `NOT_APPLICABLE` model dropped. -/
theorem format_result_status_rewrite_and_model_filter_witness :
    c6result.status =
      rewriteFake ((pyGet [("status", PyVal.str "FAKE")] "status").getD (PyVal.str "UNKNOWN")) ∧
    c6result.models = (c6models.filter keptModel).map specModelOut :=
  format_result_status_rewrite_and_model_filter c6resp
    [("status", PyVal.str "FAKE")] c6models c6result rfl rfl
    (by
      intro m hm
      simp only [c6models, List.mem_cons, List.not_mem_nil, or_false] at hm
      rcases hm with rfl | rfl | rfl <;> exact ⟨_, rfl⟩)
    rfl

/-- One non-final attempt of the single-result loop on an
`ANALYZING`-status result: it sleeps and retries. -/
theorem gdrLoop_step_analyzing (fetch : Nat → ClientOutcome)
    (ma iv : Int) (attempts fetches : Nat) (sleeps : List Int) (fuel : Nat)
    (v1 : PyVal) (r1 : DetectionResult)
    (hguard : (attempts : Int) < ma)
    (hf1 : fetch fetches = ClientOutcome.ok v1)
    (hfmt1 : format_result v1 = Except.ok r1)
    (hst1 : r1.status = PyVal.str "ANALYZING")
    (hnotlast : ¬(ma - 1 ≤ (attempts : Int))) :
    gdrLoop fetch ma iv attempts fetches sleeps (fuel + 1) =
      gdrLoop fetch ma iv (attempts + 1) (fetches + 1) (sleeps ++ [iv]) fuel := by
  simp only [gdrLoop, if_pos hguard, hf1, get_media_result, hfmt1]
  simp [hst1, pyEqStr, hnotlast]

/-- The final allowed attempt of the single-result loop on an
`ANALYZING`-status result: the current result is returned anyway. -/
theorem gdrLoop_last_analyzing (fetch : Nat → ClientOutcome)
    (ma iv : Int) (attempts fetches : Nat) (sleeps : List Int) (fuel : Nat)
    (v1 : PyVal) (r1 : DetectionResult)
    (hguard : (attempts : Int) < ma)
    (hf1 : fetch fetches = ClientOutcome.ok v1)
    (hfmt1 : format_result v1 = Except.ok r1)
    (hst1 : r1.status = PyVal.str "ANALYZING")
    (hlast : ma - 1 ≤ (attempts : Int)) :
    gdrLoop fetch ma iv attempts fetches sleeps (fuel + 1) =
      ⟨PollOutcome.ok r1, fetches + 1, sleeps⟩ := by
  simp only [gdrLoop, if_pos hguard, hf1, get_media_result, hfmt1]
  simp [hst1, pyEqStr, hlast]

/-- On an oracle whose every fetch formats to an `ANALYZING`-status
result, the single-result polling loop consumes its whole attempt budget
(one fetch and, except after the last, one sleep per attempt) and
returns the last fetched result, raising nothing. -/
theorem gdrLoop_all_analyzing (fetch : Nat → ClientOutcome) (v : Nat → PyVal)
    (r : Nat → DetectionResult) (ma iv : Int)
    (hf : ∀ n, fetch n = ClientOutcome.ok (v n))
    (hfmt : ∀ n, format_result (v n) = Except.ok (r n))
    (hst : ∀ n, (r n).status = PyVal.str "ANALYZING") :
    ∀ (f attempts fetches : Nat) (sleeps : List Int),
      f + 1 = (ma - (attempts : Int)).toNat →
      gdrLoop fetch ma iv attempts fetches sleeps (f + 1) =
        ⟨PollOutcome.ok (r (fetches + f)), fetches + f + 1,
          sleeps ++ List.replicate f iv⟩ := by
  intro f
  induction f with
  | zero =>
    intro attempts fetches sleeps hinv
    rw [gdrLoop_last_analyzing fetch ma iv attempts fetches sleeps 0
      (v fetches) (r fetches) (by omega) (hf fetches) (hfmt fetches) (hst fetches)
      (by omega)]
    simp
  | succ g ih =>
    intro attempts fetches sleeps hinv
    rw [gdrLoop_step_analyzing fetch ma iv attempts fetches sleeps (g + 1)
      (v fetches) (r fetches) (by omega) (hf fetches) (hfmt fetches) (hst fetches)
      (by omega)]
    rw [ih (attempts + 1) (fetches + 1) (sleeps ++ [iv]) (by push_cast; omega)]
    have h1 : fetches + 1 + g = fetches + (g + 1) := by omega
    rw [h1]
    simp [List.replicate_succ, List.append_assoc]

/-- **C7.** `get_detection_result` with `max_attempts = 3` against a job
that formats to `ANALYZING` on every attempt performs exactly 3 fetches
(with a sleep after each non-final one) and returns the last fetched
`ANALYZING` result normally — no error of any kind. -/
theorem get_detection_result_analyzing_degrades
    (fetch : Nat → ClientOutcome) (v : Nat → PyVal) (r : Nat → DetectionResult)
    (rid : String) (iv : Int) (hrid : rid ≠ "")
    (hf : ∀ n, fetch n = ClientOutcome.ok (v n))
    (hfmt : ∀ n, format_result (v n) = Except.ok (r n))
    (hst : ∀ n, (r n).status = PyVal.str "ANALYZING") :
    get_detection_result fetch rid 3 iv = ⟨PollOutcome.ok (r 2), 3, [iv, iv]⟩ := by
  have h := gdrLoop_all_analyzing fetch v r 3 iv hf hfmt hst 2 0 0 [] (by decide)
  simp only [get_detection_result, if_neg hrid]
  exact h

/-- A raw payload whose formatted status is `ANALYZING`. -/
def analyzingPayload : PyVal :=
  PyVal.dict [("resultsSummary", PyVal.dict [("status", PyVal.str "ANALYZING")])]

/-- `format_result analyzingPayload`. -/
def analyzingResult : DetectionResult :=
  { request_id := PyVal.str "UNKNOWN", status := PyVal.str "ANALYZING",
    score := Option.none, models := [] }

/-- Witness for C7 at a concrete always-`ANALYZING` job. -/
theorem get_detection_result_analyzing_degrades_witness :
    get_detection_result (fun _ => ClientOutcome.ok analyzingPayload) "req" 3 2000 =
      ⟨PollOutcome.ok analyzingResult, 3, [2000, 2000]⟩ :=
  get_detection_result_analyzing_degrades (fun _ => ClientOutcome.ok analyzingPayload)
    (fun _ => analyzingPayload) (fun _ => analyzingResult) "req" 2000
    (by decide) (fun _ => rfl) (fun _ => rfl) (fun _ => rfl)

/-- One attempt of the list-polling loop hitting an `unauthorized` error:
re-raised at once, no sleep. -/
theorem gdrsLoop_raise_unauthorized (fetch : Nat → ClientOutcome)
    (ma iv : Int) (attempts fetches : Nat) (sleeps : List Int) (fuel : Nat)
    (e1 : RDError)
    (hguard : (attempts : Int) < ma)
    (hfe : fetch fetches = ClientOutcome.rdErr e1)
    (hcode : e1.code = ErrorCode.unauthorized) :
    gdrsLoop fetch ma iv attempts fetches sleeps (fuel + 1) =
      ⟨PollOutcome.rdErr e1, fetches + 1, sleeps⟩ := by
  simp only [gdrsLoop, if_pos hguard, hfe, get_media_results]
  simp [hcode]

/-- One non-final attempt of the list-polling loop hitting a retryable
(non-`unauthorized`) domain error: it sleeps and retries. -/
theorem gdrsLoop_step_retryable (fetch : Nat → ClientOutcome)
    (ma iv : Int) (attempts fetches : Nat) (sleeps : List Int) (fuel : Nat)
    (e1 : RDError)
    (hguard : (attempts : Int) < ma)
    (hfe : fetch fetches = ClientOutcome.rdErr e1)
    (hne : e1.code ≠ ErrorCode.unauthorized)
    (hretry : (attempts : Int) < ma - 1) :
    gdrsLoop fetch ma iv attempts fetches sleeps (fuel + 1) =
      gdrsLoop fetch ma iv (attempts + 1) (fetches + 1) (sleeps ++ [iv]) fuel := by
  simp only [gdrsLoop, if_pos hguard, hfe, get_media_results]
  simp [hne, hretry]

/-- The final allowed attempt of the list-polling loop hitting a
retryable domain error: the error itself is re-raised (not `timeout`). -/
theorem gdrsLoop_raise_exhausted (fetch : Nat → ClientOutcome)
    (ma iv : Int) (attempts fetches : Nat) (sleeps : List Int) (fuel : Nat)
    (e1 : RDError)
    (hguard : (attempts : Int) < ma)
    (hfe : fetch fetches = ClientOutcome.rdErr e1)
    (hne : e1.code ≠ ErrorCode.unauthorized)
    (hnoretry : ¬((attempts : Int) < ma - 1)) :
    gdrsLoop fetch ma iv attempts fetches sleeps (fuel + 1) =
      ⟨PollOutcome.rdErr e1, fetches + 1, sleeps⟩ := by
  simp only [gdrsLoop, if_pos hguard, hfe, get_media_results]
  simp [hne, hnoretry]

/-- Loop lemma for C9: after `j` retryable failures, an `unauthorized`
failure is re-raised at once — no further fetch, no further sleep. -/
theorem gdrsLoop_unauth_after_retryable (fetch : Nat → ClientOutcome)
    (es : Nat → RDError) (ma iv : Int) (e : RDError)
    (hcode : e.code = ErrorCode.unauthorized) :
    ∀ (j attempts fetches : Nat) (sleeps : List Int) (fuel : Nat),
      (∀ i, i < j → fetch (fetches + i) = ClientOutcome.rdErr (es (fetches + i))) →
      (∀ i, i < j → (es (fetches + i)).code ≠ ErrorCode.unauthorized) →
      fetch (fetches + j) = ClientOutcome.rdErr e →
      (attempts : Int) + j < ma →
      fuel = (ma - (attempts : Int)).toNat →
      gdrsLoop fetch ma iv attempts fetches sleeps fuel =
        ⟨PollOutcome.rdErr e, fetches + j + 1, sleeps ++ List.replicate j iv⟩ := by
  intro j
  induction j with
  | zero =>
    intro attempts fetches sleeps fuel h1 h2 h3 h5 h6
    cases fuel with
    | zero => exfalso; omega
    | succ f =>
      rw [gdrsLoop_raise_unauthorized fetch ma iv attempts fetches sleeps f e
        (by omega) (by simpa using h3) hcode]
      simp
  | succ j' ih =>
    intro attempts fetches sleeps fuel h1 h2 h3 h5 h6
    cases fuel with
    | zero => exfalso; omega
    | succ f =>
      rw [gdrsLoop_step_retryable fetch ma iv attempts fetches sleeps f
        (es fetches) (by omega) (by simpa using h1 0 (by omega))
        (by simpa using h2 0 (by omega)) (by omega)]
      rw [ih (attempts + 1) (fetches + 1) (sleeps ++ [iv]) f
        (fun i hi => by
          have h := h1 (i + 1) (by omega)
          rwa [show fetches + (i + 1) = fetches + 1 + i from by omega] at h)
        (fun i hi => by
          have h := h2 (i + 1) (by omega)
          rwa [show fetches + (i + 1) = fetches + 1 + i from by omega] at h)
        (by
          rwa [show fetches + 1 + j' = fetches + (j' + 1) from by omega])
        (by push_cast; omega) (by push_cast; omega)]
      have h7 : fetches + 1 + j' = fetches + (j' + 1) := by omega
      rw [h7]
      simp [List.replicate_succ, List.append_assoc]

/-- **C9.** In `get_detection_results`, whenever the attempt that fails
with an `unauthorized` error is reached (after any number of retryable
failures), that error is re-raised immediately: exactly one fetch for it,
no sleep after it, regardless of the remaining attempt budget. -/
theorem get_detection_results_unauthorized_immediate
    (fetch : Nat → ClientOutcome) (es : Nat → RDError) (ma iv : Int)
    (k : Nat) (e : RDError)
    (hpre : ∀ i, i < k → fetch i = ClientOutcome.rdErr (es i))
    (hprec : ∀ i, i < k → (es i).code ≠ ErrorCode.unauthorized)
    (hk : fetch k = ClientOutcome.rdErr e)
    (hcode : e.code = ErrorCode.unauthorized)
    (hlt : (k : Int) < ma) :
    get_detection_results fetch ma iv =
      ⟨PollOutcome.rdErr e, k + 1, List.replicate k iv⟩ := by
  have h := gdrsLoop_unauth_after_retryable fetch es ma iv e hcode k 0 0 [] ma.toNat
    (fun i hi => by simpa using hpre i hi)
    (fun i hi => by simpa using hprec i hi)
    (by simpa using hk)
    (by push_cast; omega)
    (by omega)
  simpa [get_detection_results] using h

/-- Concrete oracle for the C9 witness: one retryable `server_error`,
then `unauthorized`. -/
def c9fetch : Nat → ClientOutcome :=
  fun n => if n < 1 then ClientOutcome.rdErr ⟨"srv", ErrorCode.server_error⟩
           else ClientOutcome.rdErr ⟨"auth", ErrorCode.unauthorized⟩

/-- Witness for C9: with budget 5, the second-attempt `unauthorized`
error surfaces after exactly 2 fetches and 1 sleep. -/
theorem get_detection_results_unauthorized_immediate_witness :
    get_detection_results c9fetch 5 7 =
      ⟨PollOutcome.rdErr ⟨"auth", ErrorCode.unauthorized⟩, 2, [7]⟩ := by
  have h := get_detection_results_unauthorized_immediate c9fetch
    (fun _ => ⟨"srv", ErrorCode.server_error⟩) 5 7 1 ⟨"auth", ErrorCode.unauthorized⟩
    (fun i hi => by
      have : i = 0 := by omega
      subst this
      rfl)
    (fun i hi => by simp)
    rfl rfl (by decide)
  simpa using h

/-- Loop lemma for C2: when every attempt fails with a retryable domain
error, the loop retries until the last allowed attempt and re-raises
that attempt's error. -/
theorem gdrsLoop_all_retryable (fetch : Nat → ClientOutcome)
    (es : Nat → RDError) (ma iv : Int)
    (hall : ∀ n, fetch n = ClientOutcome.rdErr (es n))
    (hne : ∀ n, (es n).code ≠ ErrorCode.unauthorized) :
    ∀ (f attempts fetches : Nat) (sleeps : List Int),
      f + 1 = (ma - (attempts : Int)).toNat →
      gdrsLoop fetch ma iv attempts fetches sleeps (f + 1) =
        ⟨PollOutcome.rdErr (es (fetches + f)), fetches + f + 1,
          sleeps ++ List.replicate f iv⟩ := by
  intro f
  induction f with
  | zero =>
    intro attempts fetches sleeps hinv
    rw [gdrsLoop_raise_exhausted fetch ma iv attempts fetches sleeps 0
      (es fetches) (by omega) (hall fetches) (hne fetches) (by omega)]
    simp
  | succ g ih =>
    intro attempts fetches sleeps hinv
    rw [gdrsLoop_step_retryable fetch ma iv attempts fetches sleeps (g + 1)
      (es fetches) (by omega) (hall fetches) (hne fetches) (by omega)]
    rw [ih (attempts + 1) (fetches + 1) (sleeps ++ [iv]) (by push_cast; omega)]
    have h1 : fetches + 1 + g = fetches + (g + 1) := by omega
    rw [h1]
    simp [List.replicate_succ, List.append_assoc]

/-- **C2 (amended).** When every attempt of `get_detection_results`
fails with a retryable domain error: with `max_attempts ≥ 1` the call
re-raises the error of the last attempt unchanged (the `timeout` raise
is unreachable), and only with `max_attempts ≤ 0` — no attempt at all —
does it raise the post-loop `timeout` error. -/
theorem get_detection_results_exhaustion_reraises_last_error
    (fetch : Nat → ClientOutcome) (es : Nat → RDError) (ma iv : Int)
    (hall : ∀ n, fetch n = ClientOutcome.rdErr (es n))
    (hne : ∀ n, (es n).code ≠ ErrorCode.unauthorized) :
    (1 ≤ ma →
      get_detection_results fetch ma iv =
        ⟨PollOutcome.rdErr (es (ma.toNat - 1)), ma.toNat,
          List.replicate (ma.toNat - 1) iv⟩) ∧
    (ma ≤ 0 →
      get_detection_results fetch ma iv =
        ⟨PollOutcome.rdErr ⟨"Failed to get detection result list after 0 attempts",
            ErrorCode.timeout⟩, 0, []⟩) := by
  constructor
  · intro hma
    obtain ⟨f, hf⟩ : ∃ f, ma.toNat = f + 1 := ⟨ma.toNat - 1, by omega⟩
    have h := gdrsLoop_all_retryable fetch es ma iv hall hne f 0 0 [] (by omega)
    simp only [get_detection_results, hf]
    simpa [hf] using h
  · intro hma
    have h0 : ma.toNat = 0 := by omega
    simp only [get_detection_results, h0]
    rfl

/-- Witness for C2 (amended): three retryable `server_error` failures
against budget 3 re-raise the last failure after 3 fetches and 2 sleeps. -/
theorem get_detection_results_exhaustion_reraises_last_error_witness :
    get_detection_results
        (fun _ => ClientOutcome.rdErr ⟨"boom", ErrorCode.server_error⟩) 3 10 =
      ⟨PollOutcome.rdErr ⟨"boom", ErrorCode.server_error⟩, 3, [10, 10]⟩ :=
  (get_detection_results_exhaustion_reraises_last_error
    (fun _ => ClientOutcome.rdErr ⟨"boom", ErrorCode.server_error⟩)
    (fun _ => ⟨"boom", ErrorCode.server_error⟩) 3 10
    (fun _ => rfl) (fun _ => by simp)).1 (by decide)

/-- Counterexample for C2 as stated: with `max_attempts = 1` and a single
retryable `server_error` failure, the call raises that `server_error`,
not an error of kind `timeout`. -/
theorem get_detection_results_exhaustion_counterexample :
    get_detection_results
        (fun _ => ClientOutcome.rdErr ⟨"boom", ErrorCode.server_error⟩) 1 2000 =
      ⟨PollOutcome.rdErr ⟨"boom", ErrorCode.server_error⟩, 1, []⟩ ∧
    ErrorCode.server_error ≠ ErrorCode.timeout :=
  ⟨rfl, by decide⟩

/-- One attempt of the single-result loop hitting a domain error that is
not retried (`not_found` exhausted or any other kind): re-raised. -/
theorem gdrLoop_raise_error (fetch : Nat → ClientOutcome)
    (ma iv : Int) (attempts fetches : Nat) (sleeps : List Int) (fuel : Nat)
    (e1 : RDError)
    (hguard : (attempts : Int) < ma)
    (hres : get_media_result (fetch fetches) = Except.error e1)
    (hnc : ¬(e1.code = ErrorCode.not_found ∧ (attempts : Int) < ma - 1)) :
    gdrLoop fetch ma iv attempts fetches sleeps (fuel + 1) =
      ⟨PollOutcome.rdErr e1, fetches + 1, sleeps⟩ := by
  simp only [gdrLoop, if_pos hguard, hres]
  simp [hnc]

/-- With at least one allowed attempt, the single-result polling loop
never surfaces an unclassified Python exception: every outcome is a
returned result or a raised domain error. -/
theorem gdrLoop_no_pyExc (fetch : Nat → ClientOutcome) (ma iv : Int) :
    ∀ (fuel attempts fetches : Nat) (sleeps : List Int),
      fuel = (ma - (attempts : Int)).toNat → 1 ≤ fuel →
      ∀ pe, (gdrLoop fetch ma iv attempts fetches sleeps fuel).outcome ≠
        PollOutcome.pyExc pe := by
  intro fuel
  induction fuel with
  | zero =>
    intro attempts fetches sleeps hinv hge pe
    exfalso
    omega
  | succ f ih =>
    intro attempts fetches sleeps hinv hge pe
    have hguard : (attempts : Int) < ma := by omega
    simp only [gdrLoop, if_pos hguard]
    cases hfe : fetch fetches with
    | ok v1 =>
      simp only [get_media_result]
      cases hfmt : format_result v1 with
      | error pe2 => simp
      | ok r1 =>
        by_cases h1 : (!(pyEqStr r1.status "ANALYZING") && !(pyEqStr r1.status "UNKNOWN")) = true
        · simp [h1]
        · simp only [h1, Bool.false_eq_true, if_false]
          by_cases h2 : ma - 1 ≤ (attempts : Int)
          · simp [ge_iff_le, h2]
          · simp only [ge_iff_le, h2, if_false]
            exact ih (attempts + 1) (fetches + 1) (sleeps ++ [iv]) (by omega) (by omega) pe
    | rdErr e1 =>
      simp only [get_media_result]
      by_cases hc : e1.code = ErrorCode.not_found ∧ (attempts : Int) < ma - 1
      · simp only [hc, if_true]
        exact ih (attempts + 1) (fetches + 1) (sleeps ++ [iv]) (by omega) (by omega) pe
      · simp [hc]
    | exc s =>
      simp only [get_media_result]
      by_cases hc : ErrorCode.unknown_error = ErrorCode.not_found ∧ (attempts : Int) < ma - 1
      · simp only [hc, if_true]
        exact ih (attempts + 1) (fetches + 1) (sleeps ++ [iv]) (by omega) (by omega) pe
      · simp [hc]

/-- The list-polling loop never surfaces an unclassified Python
exception, for any fuel. -/
theorem gdrsLoop_no_pyExc (fetch : Nat → ClientOutcome) (ma iv : Int) :
    ∀ (fuel attempts fetches : Nat) (sleeps : List Int) (pe : PyExc),
      (gdrsLoop fetch ma iv attempts fetches sleeps fuel).outcome ≠
        PollOutcome.pyExc pe := by
  intro fuel
  induction fuel with
  | zero =>
    intro attempts fetches sleeps pe
    simp [gdrsLoop]
  | succ f ih =>
    intro attempts fetches sleeps pe
    by_cases hguard : (attempts : Int) < ma
    · simp only [gdrsLoop, if_pos hguard]
      cases hfe : fetch fetches with
      | ok v1 =>
        simp only [get_media_results]
        cases hfl : format_result_list v1 with
        | ok r1 => simp
        | error fail =>
          cases fail with
          | pyExc pe2 => simp
          | rdErr e1 =>
            by_cases hc : e1.code = ErrorCode.unauthorized
            · simp [hc]
            · by_cases hr : (attempts : Int) < ma - 1
              · simp only [hc, if_false, hr, if_true]
                exact ih (attempts + 1) (fetches + 1) (sleeps ++ [iv]) pe
              · simp [hc, hr]
      | rdErr e1 =>
        simp only [get_media_results]
        by_cases hc : e1.code = ErrorCode.unauthorized
        · simp [hc]
        · by_cases hr : (attempts : Int) < ma - 1
          · simp only [hc, if_false, hr, if_true]
            exact ih (attempts + 1) (fetches + 1) (sleeps ++ [iv]) pe
          · simp [hc, hr]
      | exc s =>
        simp only [get_media_results]
        by_cases hc : ErrorCode.unknown_error = ErrorCode.unauthorized
        · simp [hc]
        · by_cases hr : (attempts : Int) < ma - 1
          · simp only [hc, if_false, hr, if_true]
            exact ih (attempts + 1) (fetches + 1) (sleeps ++ [iv]) pe
          · simp [hc, hr]
    · simp [gdrsLoop, if_neg hguard]

/-- **C3 (amended).** Both public polling operations convert every
non-domain failure into a domain error before it reaches the caller —
never an unclassified failure — but the kind is not always
`unknown_error`: a non-domain failure of the raw fetch is wrapped as
`unknown_error`, while a non-domain failure elsewhere in the operation
(e.g. formatting) is wrapped as `server_error`. -/
theorem polling_non_domain_failures_wrapped :
    (∀ (fetch : Nat → ClientOutcome) (rid : String) (ma iv : Int) (pe : PyExc),
        1 ≤ ma →
        (get_detection_result fetch rid ma iv).outcome ≠ PollOutcome.pyExc pe) ∧
    (∀ (fetch : Nat → ClientOutcome) (ma iv : Int) (pe : PyExc),
        (get_detection_results fetch ma iv).outcome ≠ PollOutcome.pyExc pe) ∧
    (∀ (fetch : Nat → ClientOutcome) (rid : String) (ma iv : Int) (s : String),
        rid ≠ "" → 1 ≤ ma → fetch 0 = ClientOutcome.exc s →
        get_detection_result fetch rid ma iv =
          ⟨PollOutcome.rdErr ⟨"Failed to get result: " ++ s, ErrorCode.unknown_error⟩,
            1, []⟩) := by
  refine ⟨?_, ?_, ?_⟩
  · intro fetch rid ma iv pe hma
    by_cases hrid : rid = ""
    · simp [get_detection_result, hrid, outcomeCode]
    · simp only [get_detection_result, if_neg hrid]
      exact gdrLoop_no_pyExc fetch ma iv ma.toNat 0 0 [] (by omega) (by omega) pe
  · intro fetch ma iv pe
    exact gdrsLoop_no_pyExc fetch ma iv ma.toNat 0 0 [] pe
  · intro fetch rid ma iv s hrid hma hf0
    obtain ⟨f, hf⟩ : ∃ f, ma.toNat = f + 1 := ⟨ma.toNat - 1, by omega⟩
    simp only [get_detection_result, if_neg hrid, hf]
    rw [gdrLoop_raise_error fetch ma iv 0 0 [] f
      ⟨"Failed to get result: " ++ s, ErrorCode.unknown_error⟩
      (by omega) (by rw [hf0]; rfl) (by simp)]

/-- Witness for C3 (amended): a non-domain transport failure on the
first attempt surfaces as a domain error of kind `unknown_error`. -/
theorem polling_non_domain_failures_wrapped_witness :
    get_detection_result (fun _ => ClientOutcome.exc "boom") "req" 30 2000 =
      ⟨PollOutcome.rdErr ⟨"Failed to get result: boom", ErrorCode.unknown_error⟩,
        1, []⟩ :=
  polling_non_domain_failures_wrapped.2.2 (fun _ => ClientOutcome.exc "boom")
    "req" 30 2000 "boom" (by decide) (by decide) rfl

/-- Counterexample for C3 as stated: a malformed payload (whose
`resultsSummary` is an int, so formatting raises `AttributeError`) makes
`get_detection_result` surface a domain error of kind `server_error`,
not `unknown_error`. -/
theorem polling_non_domain_wrap_kind_counterexample :
    outcomeCode ((get_detection_result
        (fun _ => ClientOutcome.ok (PyVal.dict [("resultsSummary", PyVal.int 5)]))
        "req" 1 2000).outcome) = Option.some ErrorCode.server_error ∧
    ErrorCode.server_error ≠ ErrorCode.unknown_error :=
  ⟨rfl, by decide⟩

/-- Every terminating run of the event-poller loop emits exactly one
event. -/
theorem pfrLoop_some_singleton (inner : Nat → PollOutcome DetectionResult)
    (interval maxWait : Int) :
    ∀ (fuel : Nat) (elapsed : Int) (calls : Nat) (evs : List Event) (calls2 : Nat),
      pfrLoop inner interval maxWait elapsed calls fuel = Option.some (evs, calls2) →
      evs.length = 1 := by
  intro fuel
  induction fuel with
  | zero =>
    intro elapsed calls evs c2 h
    simp only [pfrLoop] at h
    by_cases hlt : elapsed < maxWait
    · rw [if_pos hlt] at h
      cases h
    · rw [if_neg hlt] at h
      simp only [Option.some.injEq, Prod.mk.injEq] at h
      obtain ⟨rfl, -⟩ := h
      rfl
  | succ f ih =>
    intro elapsed calls evs c2 h
    simp only [pfrLoop] at h
    by_cases hlt : elapsed < maxWait
    · rw [if_pos hlt] at h
      cases hinner : inner calls with
      | ok r1 =>
        rw [hinner] at h
        dsimp only at h
        by_cases hst : pyEqStr r1.status "ANALYZING" = true
        · rw [if_pos hst] at h
          exact ih _ _ _ _ h
        · rw [if_neg hst] at h
          simp only [Option.some.injEq, Prod.mk.injEq] at h
          obtain ⟨rfl, -⟩ := h
          rfl
      | rdErr e1 =>
        rw [hinner] at h
        dsimp only at h
        by_cases hc : e1.code = ErrorCode.not_found
        · rw [if_pos hc] at h
          exact ih _ _ _ _ h
        · rw [if_neg hc] at h
          simp only [Option.some.injEq, Prod.mk.injEq] at h
          obtain ⟨rfl, -⟩ := h
          rfl
      | pyExc pe =>
        rw [hinner] at h
        dsimp only at h
        simp only [Option.some.injEq, Prod.mk.injEq] at h
        obtain ⟨rfl, -⟩ := h
        rfl
    · rw [if_neg hlt] at h
      simp only [Option.some.injEq, Prod.mk.injEq] at h
      obtain ⟨rfl, -⟩ := h
      rfl

/-- With a positive effective interval, fuel equal to the remaining time
budget suffices: the event-poller loop always terminates. -/
theorem pfrLoop_terminates (inner : Nat → PollOutcome DetectionResult)
    (interval maxWait : Int) (hiv : 1 ≤ interval) :
    ∀ (fuel : Nat) (elapsed : Int) (calls : Nat),
      (maxWait - elapsed).toNat ≤ fuel →
      pfrLoop inner interval maxWait elapsed calls fuel ≠ Option.none := by
  intro fuel
  induction fuel with
  | zero =>
    intro elapsed calls hle
    have hnlt : ¬(elapsed < maxWait) := by omega
    simp [pfrLoop, hnlt]
  | succ f ih =>
    intro elapsed calls hle
    by_cases hlt : elapsed < maxWait
    · simp only [pfrLoop, if_pos hlt]
      cases hinner : inner calls with
      | ok r1 =>
        by_cases hst : pyEqStr r1.status "ANALYZING" = true
        · simp only [if_pos hst]
          exact ih (elapsed + interval) (calls + 1) (by omega)
        · simp [hst]
      | rdErr e1 =>
        by_cases hc : e1.code = ErrorCode.not_found
        · simp only [if_pos hc]
          exact ih (elapsed + interval) (calls + 1) (by omega)
        · simp [hc]
      | pyExc pe => simp
    · simp [pfrLoop, hlt]

/-- **C5.** Every terminating run of `poll_for_results` emits exactly one
terminal event (a single `result` or a single `error`), and with a
positive effective polling interval the run does terminate when given
fuel equal to its time budget. -/
theorem poll_for_results_exactly_one_event :
    (∀ (inner : Nat → PollOutcome DetectionResult) (ivArg tArg : Option Int)
        (fuel : Nat) (evs : List Event) (calls : Nat),
        poll_for_results inner ivArg tArg fuel = Option.some (evs, calls) →
        evs.length = 1) ∧
    (∀ (inner : Nat → PollOutcome DetectionResult) (ivArg tArg : Option Int),
        1 ≤ pyOrInt ivArg DEFAULT_POLLING_INTERVAL →
        poll_for_results inner ivArg tArg ((pyOrInt tArg DEFAULT_TIMEOUT).toNat) ≠
          Option.none) := by
  constructor
  · intro inner ivArg tArg fuel evs calls h
    simp only [poll_for_results] at h
    by_cases ht : pyOrInt tArg DEFAULT_TIMEOUT ≤ 0
    · rw [if_pos ht] at h
      simp only [Option.some.injEq, Prod.mk.injEq] at h
      obtain ⟨rfl, -⟩ := h
      rfl
    · rw [if_neg ht] at h
      exact pfrLoop_some_singleton inner _ _ fuel 0 0 evs calls h
  · intro inner ivArg tArg hiv
    simp only [poll_for_results]
    by_cases ht : pyOrInt tArg DEFAULT_TIMEOUT ≤ 0
    · rw [if_pos ht]
      simp
    · rw [if_neg ht]
      exact pfrLoop_terminates inner _ _ hiv _ 0 0 (by omega)

/-- Witness for C5: a run that times out immediately emits exactly the
one `timeout` error event. -/
theorem poll_for_results_exactly_one_event_witness :
    ([Event.error ⟨"Polling timeout exceeded", ErrorCode.timeout⟩] : List Event).length
      = 1 :=
  poll_for_results_exactly_one_event.1 (fun _ => PollOutcome.pyExc PyExc.typeError)
    Option.none (Option.some (-1)) 0
    [Event.error ⟨"Polling timeout exceeded", ErrorCode.timeout⟩] 0 (by rfl)

/-- **C1 (amended).** `poll_for_results` with a strictly negative
`timeout` emits exactly one `error` event of kind `timeout` with zero
inner fetch calls; `timeout = 0`, however, is falsy under the source's
`timeout or DEFAULT_TIMEOUT` defaulting and is silently replaced by the
60000 ms default, so the call behaves exactly like one with the default
timeout (and in particular may perform network fetches). -/
theorem poll_for_results_nonpositive_timeout :
    (∀ (inner : Nat → PollOutcome DetectionResult) (ivArg : Option Int)
        (t : Int) (fuel : Nat),
        t < 0 →
        poll_for_results inner ivArg (Option.some t) fuel =
          Option.some ([Event.error ⟨"Polling timeout exceeded", ErrorCode.timeout⟩], 0)) ∧
    (∀ (inner : Nat → PollOutcome DetectionResult) (ivArg : Option Int) (fuel : Nat),
        poll_for_results inner ivArg (Option.some 0) fuel =
          poll_for_results inner ivArg (Option.some DEFAULT_TIMEOUT) fuel) := by
  constructor
  · intro inner ivArg t fuel ht
    have h1 : ¬(t = 0) := by omega
    have h2 : t ≤ 0 := by omega
    simp [poll_for_results, pyOrInt, h1, h2]
  · intro inner ivArg fuel
    rfl

/-- Witness for C1 (amended) at `timeout = -5`. -/
theorem poll_for_results_nonpositive_timeout_witness :
    poll_for_results (fun _ => PollOutcome.pyExc PyExc.typeError) Option.none
        (Option.some (-5)) 99 =
      Option.some ([Event.error ⟨"Polling timeout exceeded", ErrorCode.timeout⟩], 0) :=
  poll_for_results_nonpositive_timeout.1 (fun _ => PollOutcome.pyExc PyExc.typeError)
    Option.none (-5) 99 (by decide)

/-- Concrete inner oracle for the C1 counterexample: the first inner
fetch already yields a terminal (`AUTHENTIC`) result. -/
def c1inner : Nat → PollOutcome DetectionResult :=
  fun _ => PollOutcome.ok { request_id := PyVal.str "X", status := PyVal.str "AUTHENTIC",
                            score := Option.none, models := [] }

/-- Counterexample for C1 as stated: with `timeout = 0` the poller does
not emit a `timeout` error with zero fetches — it substitutes the 60000
default, performs an inner fetch, and emits a `result` event. -/
theorem poll_for_results_zero_timeout_counterexample :
    poll_for_results c1inner Option.none (Option.some 0) 1 =
      Option.some ([Event.result { request_id := PyVal.str "X",
                                   status := PyVal.str "AUTHENTIC",
                                   score := Option.none, models := [] }], 1) := rfl

end RD
